import Mathlib

set_option maxRecDepth 8000

/-!
Shallow embedding of the account-ledger service in `src/index.js` (an Express
application backed by a Mongoose `User` model) and proofs of its specified
properties.

Modelling conventions:
* JavaScript numbers are modelled exactly, by rationals (`ℚ`), with NaN and the
  two infinities carried as separate constructors of the value type `JsVal`;
  decimal rounding of IEEE doubles is outside the model.
* The MongoDB `users` collection is a list of `Account` records; `findById` and
  `save` (document persistence with schema validation `min: 0` on `balance`)
  are modelled as `Except`-valued store operations.  The only modelled failure
  modes are the ones the source exercises: a `CastError` on a malformed
  ObjectId during `findById`, and a validation failure on `save` when the
  balance constraint `min: 0` is violated.
* Every store interaction the handler performs is recorded in a trace of
  `StoreOp` values, so "zero reads"/"zero writes" claims are statable.
-/

namespace Bank

/-- JavaScript value as it can appear in a parsed JSON request body field,
plus the non-finite numbers a JavaScript number can hold.  Objects and arrays
are outside the model (they play no role in any claim). -/
inductive JsVal where
  | undef
  | null
  | boolV (b : Bool)
  | str (s : String)
  | num (q : ℚ)
  | nan
  | posInf
  | negInf
  deriving DecidableEq

/-- JavaScript truthiness, as used by `!fromUserId || !toUserId || !amount`
(line 75): `undefined`, `null`, `false`, the empty string, `0` and `NaN` are
falsy, everything else is truthy. -/
def JsVal.truthy : JsVal → Bool
  | .undef => false
  | .null => false
  | .boolV b => b
  | .str s => !(s == "")
  | .num q => !(q == 0)
  | .nan => false
  | .posInf => true
  | .negInf => true

/-- Whether `typeof v === 'number'` holds (line 79); `NaN` and the infinities
are of type `number` in JavaScript. -/
def JsVal.isNumberType : JsVal → Bool
  | .num _ => true
  | .nan => true
  | .posInf => true
  | .negInf => true
  | _ => false

/-- The JavaScript comparison `v <= 0` (line 79).  `NaN <= 0` is false;
`-Infinity <= 0` is true.  Non-numbers are never compared here because the
handler checks `typeof` first. -/
def JsVal.jsLeZero : JsVal → Bool
  | .num q => decide (q ≤ 0)
  | .nan => false
  | .posInf => false
  | .negInf => true
  | _ => false

/-- JavaScript strict equality `===` (line 83).  `NaN === NaN` is false, which
the catch-all case delivers. -/
def JsVal.strictEq : JsVal → JsVal → Bool
  | .undef, .undef => true
  | .null, .null => true
  | .boolV a, .boolV b => a == b
  | .str a, .str b => a == b
  | .num a, .num b => a == b
  | .posInf, .posInf => true
  | .negInf, .negInf => true
  | _, _ => false

/-- The rational carried by a finite JavaScript number.  In the handler this is
only applied at the arithmetic on lines 108-109, a point every non-finite
amount provably never reaches (NaN and `-Infinity` fail validation,
`+Infinity` fails the balance comparison), so the default `0` is inert. -/
def JsVal.getNum : JsVal → ℚ
  | .num q => q
  | _ => 0

/-- The JavaScript comparison `balance < amount` (line 101) for a finite
balance against a number-typed amount: true against `+Infinity`, false against
`-Infinity` and `NaN`. -/
def jsLtNum (bal : ℚ) : JsVal → Bool
  | .num q => decide (bal < q)
  | .posInf => true
  | _ => false

/-- JavaScript number-to-string coercion as used by the template literal on
line 118, for the integral values exercised here; non-integral rationals keep
Lean's rendering (IEEE decimal shortening is outside the model). -/
def jsNumToString (q : ℚ) : String :=
  if q.den = 1 then toString q.num else toString q

/-- A document of the Mongoose `User` model (lines 24-37): a display name and
a numeric balance with the schema constraint `min: 0`, keyed by its ObjectId. -/
structure Account where
  id : String
  name : String
  balance : ℚ
  deriving DecidableEq

/-- Whether a character is a hexadecimal digit, as accepted by an ObjectId. -/
def isHexChar (c : Char) : Bool :=
  c.isDigit || ('a' ≤ c && c ≤ 'f') || ('A' ≤ c && c ≤ 'F')

/-- Whether a string is a well-formed MongoDB ObjectId: 24 hexadecimal
characters.  Anything else makes `findById` throw a `CastError`. -/
def validObjectId (s : String) : Bool :=
  s.length == 24 && s.data.all isHexChar

/-- Casting a request-body value to an ObjectId, as Mongoose does inside
`findById`: only a well-formed ObjectId string casts; any other value throws
a `CastError`. -/
def castId : JsVal → Option String
  | .str s => if validObjectId s then some s else none
  | _ => none

/-- The error message of a Mongoose `CastError` on a malformed identifier
(caught by the handler's catch block, line 123). -/
def castErrorMsg : String := "Cast to ObjectId failed"

/-- The error message of a Mongoose validation failure on `save` when the
`min: 0` constraint on `balance` is violated. -/
def balanceValidationMsg : String :=
  "User validation failed: balance is less than minimum allowed value"

/-- Point lookup in the collection: the first document whose id equals the
requested one, if any. -/
def findAccount : List Account → String → Option Account
  | [], _ => none
  | a :: l, i => if a.id = i then some a else findAccount l i

/-- Single-record replacement in the collection: the document whose id equals
the saved document's id is replaced, every other document is untouched. -/
def updateAccount : List Account → Account → List Account
  | [], _ => []
  | b :: l, a => (if b.id = a.id then a else b) :: updateAccount l a

/-- The store lookup `User.findById(id)` (lines 89-90): throws (as
`Except.error`) on a malformed identifier, otherwise returns the document
with the given id, or `none` when no document matches. -/
def findById (store : List Account) (v : JsVal) : Except String (Option Account) :=
  match castId v with
  | none => .error castErrorMsg
  | some i => .ok (findAccount store i)

/-- The document persistence `user.save()` (lines 112-113): Mongoose
re-validates the schema, so a negative balance is rejected (as `Except.error`,
never clamped); a valid document replaces the stored document with its id. -/
def saveAccount (store : List Account) (a : Account) : Except String (List Account) :=
  if a.balance < 0 then .error balanceValidationMsg
  else .ok (updateAccount store a)

/-- One store interaction performed by a handler, for the side-effect trace. -/
inductive StoreOp where
  | read (v : JsVal)
  | write (a : Account)
  deriving DecidableEq

/-- The decoded body of a transfer request (line 72):
`{fromUserId, toUserId, amount}`. -/
structure TransferReq where
  fromUserId : JsVal
  toUserId : JsVal
  amount : JsVal
  deriving DecidableEq

/-- An HTTP response of the service: status code, `message` field, optional
`error` detail (500 responses), and the optional `senderBalance` /
`receiverBalance` fields of a successful transfer. -/
structure Response where
  status : Nat
  message : String
  error : Option String
  senderBalance : Option ℚ
  receiverBalance : Option ℚ
  deriving DecidableEq

/-- A response carrying only a status and a message. -/
def mkResp (status : Nat) (message : String) : Response :=
  ⟨status, message, none, none, none⟩

/-- The catch-block response (lines 123-126): status 500 with the underlying
error's message attached as the `error` field. -/
def errResp (e : String) : Response :=
  ⟨500, "An error occurred during the transfer", some e, none, none⟩

/-- The `POST /transfer` handler (lines 71-127), returning the response, the
store as left by the call, and the trace of store interactions performed. -/
def transfer (store : List Account) (req : TransferReq) :
    Response × List Account × List StoreOp :=
  if !req.fromUserId.truthy || !req.toUserId.truthy || !req.amount.truthy then
    (mkResp 400 "Missing fromUserId, toUserId, or amount", store, [])
  else if !req.amount.isNumberType || req.amount.jsLeZero then
    (mkResp 400 "Invalid transfer amount", store, [])
  else if req.fromUserId.strictEq req.toUserId then
    (mkResp 400 "Cannot transfer to the same account", store, [])
  else
    match findById store req.fromUserId with
    | .error e => (errResp e, store, [.read req.fromUserId])
    | .ok fromUser? =>
      match findById store req.toUserId with
      | .error e => (errResp e, store, [.read req.fromUserId, .read req.toUserId])
      | .ok toUser? =>
        match fromUser? with
        | none =>
          (mkResp 404 "Sender account not found", store,
            [.read req.fromUserId, .read req.toUserId])
        | some fromUser =>
          match toUser? with
          | none =>
            (mkResp 404 "Receiver account not found", store,
              [.read req.fromUserId, .read req.toUserId])
          | some toUser =>
            if jsLtNum fromUser.balance req.amount then
              (mkResp 400 "Insufficient balance", store,
                [.read req.fromUserId, .read req.toUserId])
            else
              let amt := req.amount.getNum
              let fromUser2 : Account :=
                ⟨fromUser.id, fromUser.name, fromUser.balance - amt⟩
              let toUser2 : Account :=
                ⟨toUser.id, toUser.name, toUser.balance + amt⟩
              match saveAccount store fromUser2 with
              | .error e =>
                (errResp e, store, [.read req.fromUserId, .read req.toUserId])
              | .ok store1 =>
                match saveAccount store1 toUser2 with
                | .error e =>
                  (errResp e, store1,
                    [.read req.fromUserId, .read req.toUserId, .write fromUser2])
                | .ok store2 =>
                  (⟨200,
                    "Transferred $" ++ jsNumToString amt ++ " from " ++
                      fromUser.name ++ " to " ++ toUser.name,
                    none, some fromUser2.balance, some toUser2.balance⟩,
                   store2,
                   [.read req.fromUserId, .read req.toUserId,
                    .write fromUser2, .write toUser2])

/-- `User.deleteMany({})` (line 49): removes every document. -/
def deleteManyAll (_store : List Account) : List Account := []

/-- `User.insertMany(docs)` (line 55): validates every document against the
schema (`balance` at least 0) and appends them, with their store-assigned ids. -/
def insertMany (store : List Account) (docs : List Account) :
    Except String (List Account) :=
  if docs.all (fun d => decide (0 ≤ d.balance)) then .ok (store ++ docs)
  else .error balanceValidationMsg

/-- The `POST /create-users` handler (lines 46-64): clears the collection,
then inserts Alice with balance 1000 and Bob with balance 500.  `idA` and
`idB` are the ids the store assigns to the new documents. -/
def createUsers (store : List Account) (idA idB : String) :
    Response × List Account :=
  let cleared := deleteManyAll store
  match insertMany cleared [⟨idA, "Alice", 1000⟩, ⟨idB, "Bob", 500⟩] with
  | .ok created => (mkResp 201 "Users created", created)
  | .error e => (⟨500, "Error creating users", some e, none, none⟩, cleared)

/-- The failure taxonomy of the specification (§7). -/
inductive Failure where
  | missingField
  | invalidAmount
  | selfTransfer
  | sourceNotFound
  | destinationNotFound
  | insufficientFunds
  | operationalFailure (e : String)
  deriving DecidableEq

/-- Classification of a handler response into the specification's failure
taxonomy, by the human-readable message that names each failure (a successful
transfer is the only status-200 response). -/
def respFailure (r : Response) : Option Failure :=
  if r.status == 200 then none
  else if r.message == "Missing fromUserId, toUserId, or amount" then
    some .missingField
  else if r.message == "Invalid transfer amount" then some .invalidAmount
  else if r.message == "Cannot transfer to the same account" then
    some .selfTransfer
  else if r.message == "Sender account not found" then some .sourceNotFound
  else if r.message == "Receiver account not found" then
    some .destinationNotFound
  else if r.message == "Insufficient balance" then some .insufficientFunds
  else if r.message == "An error occurred during the transfer" then
    some (.operationalFailure (r.error.getD ""))
  else none

/-- The status category the specification assigns to each failure kind (§6). -/
def failureStatus : Failure → Nat
  | .missingField => 400
  | .invalidAmount => 400
  | .selfTransfer => 400
  | .sourceNotFound => 404
  | .destinationNotFound => 404
  | .insufficientFunds => 400
  | .operationalFailure _ => 500

/-- Precondition 1 of the handler, violated: a falsy `fromUserId`, `toUserId`
or `amount` (line 75). -/
def checkMissingField (req : TransferReq) : Bool :=
  !req.fromUserId.truthy || !req.toUserId.truthy || !req.amount.truthy

/-- Precondition 2 of the handler, violated: `amount` not of number type, or
`amount <= 0` (line 79). -/
def checkInvalidAmount (req : TransferReq) : Bool :=
  !req.amount.isNumberType || req.amount.jsLeZero

/-- Precondition 3 of the handler, violated: source and destination
identifiers strictly equal (line 83). -/
def checkSelfTransfer (req : TransferReq) : Bool :=
  req.fromUserId.strictEq req.toUserId

/-- The ordered, short-circuiting evaluation of the preconditions, composed
from the individual checks in the order MissingField, InvalidAmount,
SelfTransfer, SourceNotFound, DestinationNotFound, InsufficientFunds; store
errors surface as `operationalFailure` at the interaction that raises them. -/
def orderedCheck (store : List Account) (req : TransferReq) : Option Failure :=
  if checkMissingField req then some .missingField
  else if checkInvalidAmount req then some .invalidAmount
  else if checkSelfTransfer req then some .selfTransfer
  else
    match findById store req.fromUserId with
    | .error e => some (.operationalFailure e)
    | .ok fromUser? =>
      match findById store req.toUserId with
      | .error e => some (.operationalFailure e)
      | .ok toUser? =>
        match fromUser? with
        | none => some .sourceNotFound
        | some fromUser =>
          match toUser? with
          | none => some .destinationNotFound
          | some toUser =>
            if jsLtNum fromUser.balance req.amount then
              some .insufficientFunds
            else
              let amt := req.amount.getNum
              match saveAccount store
                  ⟨fromUser.id, fromUser.name, fromUser.balance - amt⟩ with
              | .error e => some (.operationalFailure e)
              | .ok store1 =>
                match saveAccount store1
                    ⟨toUser.id, toUser.name, toUser.balance + amt⟩ with
                | .error e => some (.operationalFailure e)
                | .ok _ => none

/-- The status contract of the request handler: the response status category
is a function of the failure kind (400 for validation and balance failures,
404 for the two not-found kinds, 500 with the underlying error detail attached
for operational failures), and a success is a 200 carrying both post-transfer
balances. -/
def statusContract (r : Response) : Prop :=
  match respFailure r with
  | none =>
      r.status = 200 ∧ r.senderBalance.isSome = true ∧
        r.receiverBalance.isSome = true
  | some (.operationalFailure e) =>
      r.status = failureStatus (.operationalFailure e) ∧ r.error = some e
  | some fk => r.status = failureStatus fk

/-- A well-formed ObjectId for the seeded Alice account, for concrete runs. -/
def idAlice : String := "aaaaaaaaaaaaaaaaaaaaaaaa"

/-- A well-formed ObjectId for the seeded Bob account, for concrete runs. -/
def idBob : String := "bbbbbbbbbbbbbbbbbbbbbbbb"

/-- The store as seeded by `POST /create-users`: Alice with 1000, Bob 500. -/
def seededStore : List Account :=
  [⟨idAlice, "Alice", 1000⟩, ⟨idBob, "Bob", 500⟩]

/-- A store where Alice's balance (100) is below a 150 transfer. -/
def lowStore : List Account :=
  [⟨idAlice, "Alice", 100⟩, ⟨idBob, "Bob", 500⟩]

/-- A store whose Bob document violates the balance constraint (it can arise
only outside the service, but `save` must still reject writes against it). -/
def negStore : List Account :=
  [⟨idAlice, "Alice", 100⟩, ⟨idBob, "Bob", -50⟩]

/-! Helper lemmas about the store primitives. -/

/-- A well-formed ObjectId is a truthy request value (it has 24 characters,
so it is not the empty string). -/
theorem truthy_str_of_valid {s : String} (h : validObjectId s = true) :
    (JsVal.str s).truthy = true := by
  have hne : s ≠ "" := by
    intro he
    subst he
    exact absurd h (by decide)
  simp [JsVal.truthy, hne]

/-- The document a point lookup returns carries the requested id. -/
theorem findAccount_id {l : List Account} {i : String} {a : Account}
    (h : findAccount l i = some a) : a.id = i := by
  induction l with
  | nil => cases h
  | cons c l ih =>
    simp only [findAccount] at h
    split at h
    · cases h
      assumption
    · exact ih h

/-- Looking up a well-formed ObjectId returns the store's point lookup. -/
theorem findById_valid {store : List Account} {s : String}
    (h : validObjectId s = true) :
    findById store (.str s) = .ok (findAccount store s) := by
  simp [findById, castId, h]

/-- Looking up a malformed identifier raises a cast error. -/
theorem findById_invalid {store : List Account} {s : String}
    (h : validObjectId s = false) :
    findById store (.str s) = .error castErrorMsg := by
  simp [findById, castId, h]

/-- Saving a document whose balance satisfies the constraint replaces the
stored document with that id. -/
theorem saveAccount_ok {store : List Account} {a : Account}
    (h : 0 ≤ a.balance) :
    saveAccount store a = .ok (updateAccount store a) := by
  unfold saveAccount
  rw [if_neg (not_lt.mpr h)]

/-- Saving a document with a negative balance is rejected by validation. -/
theorem saveAccount_rejects {store : List Account} {a : Account}
    (h : a.balance < 0) :
    saveAccount store a = .error balanceValidationMsg := by
  unfold saveAccount
  rw [if_pos h]

/-- Replacing one document with a constraint-satisfying one keeps every
stored balance non-negative. -/
theorem updateAccount_nonneg {l : List Account} {a : Account}
    (ha : 0 ≤ a.balance) (hinv : ∀ b ∈ l, 0 ≤ b.balance) :
    ∀ b ∈ updateAccount l a, 0 ≤ b.balance := by
  induction l with
  | nil => simp [updateAccount]
  | cons c l ih =>
    intro b hb
    simp only [updateAccount, List.mem_cons] at hb
    rcases hb with hb | hb
    · subst hb
      split
      · exact ha
      · exact hinv c (by simp)
    · exact ih (fun x hx => hinv x (List.mem_cons_of_mem _ hx)) b hb

/-- A successful save keeps every stored balance non-negative. -/
theorem saveAccount_preserves {store store' : List Account} {a : Account}
    (h : saveAccount store a = .ok store')
    (hinv : ∀ b ∈ store, 0 ≤ b.balance) : ∀ b ∈ store', 0 ≤ b.balance := by
  unfold saveAccount at h
  split at h
  · cases h
  · next hna =>
    cases h
    exact updateAccount_nonneg (le_of_not_lt hna) hinv

/-- Saving a document leaves the point lookup of any other id unchanged. -/
theorem findAccount_update_ne {l : List Account} {a : Account} {i : String}
    (h : a.id ≠ i) :
    findAccount (updateAccount l a) i = findAccount l i := by
  induction l with
  | nil => rfl
  | cons c l ih =>
    simp only [updateAccount, findAccount]
    by_cases hc : c.id = a.id
    · rw [if_pos hc, if_neg h, if_neg (show ¬c.id = i by rw [hc]; exact h)]
      exact ih
    · rw [if_neg hc]
      by_cases hci : c.id = i
      · rw [if_pos hci, if_pos hci]
      · rw [if_neg hci, if_neg hci]
        exact ih

/-- Saving a document whose id resolves in the store makes the point lookup
of that id return exactly the saved document. -/
theorem findAccount_update_self {l : List Account} {a : Account}
    (h : (findAccount l a.id).isSome = true) :
    findAccount (updateAccount l a) a.id = some a := by
  induction l with
  | nil => simp [findAccount] at h
  | cons c l ih =>
    simp only [updateAccount, findAccount] at h ⊢
    by_cases hc : c.id = a.id
    · rw [if_pos hc, if_pos rfl]
    · rw [if_neg hc] at h
      rw [if_neg hc, if_neg hc]
      exact ih h

/-! Claim theorems. -/

/-- C2: every transfer call evaluates the six preconditions in the fixed
order MissingField, InvalidAmount, SelfTransfer, SourceNotFound,
DestinationNotFound, InsufficientFunds, and the failure reported is that of
the first violated check (short-circuiting); store errors surface as
operational failures at the interaction that raises them. -/
theorem transfer_first_violation_reported (store : List Account)
    (req : TransferReq) :
    respFailure (transfer store req).1 = orderedCheck store req := by
  simp only [transfer, orderedCheck, checkMissingField, checkInvalidAmount,
    checkSelfTransfer]
  repeat' split
  all_goals rfl

/-- C9: the response status category is a function of the failure kind
exactly as mapped (MissingField, InvalidAmount, SelfTransfer,
InsufficientFunds to 400; SourceNotFound, DestinationNotFound to 404;
operational errors to 500 with the underlying error detail attached; success
to 200 with both post-transfer balances). -/
theorem transfer_status_mapping (store : List Account) (req : TransferReq) :
    statusContract (transfer store req).1 := by
  simp only [transfer]
  repeat' split
  all_goals first
    | exact ⟨rfl, rfl, rfl⟩
    | exact ⟨rfl, rfl⟩
    | rfl

/-- C3 counterexample: with both identifiers present and the amount present
but equal to zero, the handler reports MissingField (the falsiness check on
`amount` fires before the number check), not InvalidAmount as claimed. -/
theorem amount_zero_reported_missing :
    respFailure (transfer seededStore ⟨.str idAlice, .str idBob, .num 0⟩).1
        = some .missingField ∧
    respFailure (transfer seededStore ⟨.str idAlice, .str idBob, .num 0⟩).1
        ≠ some .invalidAmount ∧
    (transfer seededStore ⟨.str idAlice, .str idBob, .num 0⟩).2.2 = [] := by
  decide

/-- C3 (amended): with both identifiers truthy, an amount of zero or NaN is
reported as MissingField (JavaScript falsiness), while a truthy amount that
is not of number type or compares `<= 0` (negative, or negative infinity) is
reported as InvalidAmount; in every such case the store is untouched and the
interaction trace is empty. -/
theorem invalid_amount_validation (store : List Account) (fv tv av : JsVal)
    (hf : fv.truthy = true) (ht : tv.truthy = true) :
    (av = .num 0 ∨ av = .nan →
       transfer store ⟨fv, tv, av⟩ =
         (mkResp 400 "Missing fromUserId, toUserId, or amount", store, [])) ∧
    (av.truthy = true →
       av.isNumberType = false ∨ av.jsLeZero = true →
       transfer store ⟨fv, tv, av⟩ =
         (mkResp 400 "Invalid transfer amount", store, [])) := by
  constructor
  · rintro (rfl | rfl) <;> simp [transfer, JsVal.truthy, hf, ht]
  · intro hat hinv
    have h2 : (!av.isNumberType || av.jsLeZero) = true := by
      rcases hinv with h | h <;> simp [h]
    simp [transfer, hf, ht, hat, h2]

/-- C3 witness: a present, negative amount is rejected as InvalidAmount with
an empty interaction trace. -/
theorem invalid_amount_validation_witness :
    transfer seededStore ⟨.str idAlice, .str idBob, .num (-5)⟩ =
      (mkResp 400 "Invalid transfer amount", seededStore, []) :=
  (invalid_amount_validation seededStore (.str idAlice) (.str idBob)
      (.num (-5)) (by decide) (by decide)).2 (by decide) (Or.inr (by decide))

/-- C6: with both identifiers truthy, a truthy amount that passes the number
validation, and strictly equal source and destination identifiers, the
handler rejects the call as a self transfer, for every store (so regardless
of any account's balance or existence), leaving the store untouched and
performing zero store reads. -/
theorem self_transfer_rejected (store : List Account) (fv tv av : JsVal)
    (hf : fv.truthy = true) (ht : tv.truthy = true) (ha : av.truthy = true)
    (han : av.isNumberType = true) (haz : av.jsLeZero = false)
    (heq : fv.strictEq tv = true) :
    transfer store ⟨fv, tv, av⟩ =
      (mkResp 400 "Cannot transfer to the same account", store, []) := by
  simp [transfer, hf, ht, ha, han, haz, heq]

/-- C6 witness: a self transfer of 10 on the seeded store is rejected with no
store interaction. -/
theorem self_transfer_rejected_witness :
    transfer seededStore ⟨.str idAlice, .str idAlice, .num 10⟩ =
      (mkResp 400 "Cannot transfer to the same account", seededStore, []) :=
  self_transfer_rejected seededStore (.str idAlice) (.str idAlice) (.num 10)
    (by decide) (by decide) (by decide) (by decide) (by decide) (by decide)

/-- C4: when both identifiers are well-formed, distinct and resolve to
accounts, the amount is a positive number, and the source balance is strictly
below the amount, the handler fails with InsufficientFunds, the store is
returned unchanged (so both balances are unchanged), and the trace holds the
two reads and no write. -/
theorem insufficient_funds_no_writes (store : List Account) (f t : String)
    (q : ℚ) (src dst : Account)
    (hf : validObjectId f = true) (ht : validObjectId t = true) (hne : f ≠ t)
    (hq : 0 < q)
    (hsrc : findAccount store f = some src)
    (hdst : findAccount store t = some dst)
    (hlt : src.balance < q) :
    transfer store ⟨.str f, .str t, .num q⟩ =
      (mkResp 400 "Insufficient balance", store,
        [.read (.str f), .read (.str t)]) := by
  have hft := truthy_str_of_valid hf
  have htt := truthy_str_of_valid ht
  have hqt : (JsVal.num q).truthy = true := by
    simp [JsVal.truthy, beq_eq_false_iff_ne.mpr (ne_of_gt hq)]
  have hjz : (JsVal.num q).jsLeZero = false := by
    simp [JsVal.jsLeZero, decide_eq_false (not_le.mpr hq)]
  have hst : (JsVal.str f).strictEq (.str t) = false := by
    simp [JsVal.strictEq, hne]
  have hltb : jsLtNum src.balance (.num q) = true := by
    simp [jsLtNum, hlt]
  simp [transfer, hft, htt, hqt, hjz, hst, findById_valid hf,
    findById_valid ht, hsrc, hdst, hltb, JsVal.isNumberType]

/-- C4 witness: transferring 150 from an Alice holding 100 fails with
InsufficientFunds and performs only the two reads. -/
theorem insufficient_funds_no_writes_witness :
    transfer lowStore ⟨.str idAlice, .str idBob, .num 150⟩ =
      (mkResp 400 "Insufficient balance", lowStore,
        [.read (.str idAlice), .read (.str idBob)]) :=
  insufficient_funds_no_writes lowStore idAlice idBob 150
    ⟨idAlice, "Alice", 100⟩ ⟨idBob, "Bob", 500⟩ (by decide) (by decide)
    (by decide) (by decide) (by decide) (by decide) (by decide)

/-- C5: starting from a store whose balances are all non-negative, the store
a transfer call leaves behind again has only non-negative balances (the
handler debits only when the balance covers the amount and credits only a
positive amount, and `save` validates the constraint); moreover `save`
rejects, rather than clamps, any document whose balance is negative. -/
theorem balances_never_negative (store : List Account) (req : TransferReq)
    (hinv : ∀ a ∈ store, 0 ≤ a.balance) :
    (∀ a ∈ (transfer store req).2.1, 0 ≤ a.balance) ∧
    (∀ (s : List Account) (b : Account), b.balance < 0 →
       saveAccount s b = .error balanceValidationMsg) := by
  refine ⟨?_, fun s b hb => saveAccount_rejects hb⟩
  simp only [transfer]
  split
  · exact hinv
  split
  · exact hinv
  split
  · exact hinv
  split
  · exact hinv
  split
  · exact hinv
  split
  · exact hinv
  split
  · exact hinv
  split
  · exact hinv
  split
  · exact hinv
  next store1 heq1 =>
    split
    · exact saveAccount_preserves heq1 hinv
    next store2 heq2 =>
      exact saveAccount_preserves heq2 (saveAccount_preserves heq1 hinv)

/-- C5 witness: after a successful 150 transfer on the seeded store the
updated Alice document still has a non-negative balance, and saving a
document with balance -1 is rejected by validation. -/
theorem balances_never_negative_witness :
    (0 : ℚ) ≤ (Account.mk idAlice "Alice" 850).balance ∧
    saveAccount [] ⟨idBob, "Bob", -1⟩ = .error balanceValidationMsg :=
  ⟨(balances_never_negative seededStore ⟨.str idAlice, .str idBob, .num 150⟩
      (by decide)).1 ⟨idAlice, "Alice", 850⟩ (by with_unfolding_all decide),
   (balances_never_negative seededStore ⟨.str idAlice, .str idBob, .num 150⟩
      (by decide)).2 [] ⟨idBob, "Bob", -1⟩ (by decide)⟩

/-- C1 counterexample: on a fully valid 150 transfer from Alice to Bob the
operation succeeds, but the message carries a dollar sign before the amount
(the template literal on line 118 is `Transferred $...`), so it is not the
claimed "Transferred 150 from Alice to Bob". -/
theorem transfer_message_has_dollar_sign :
    (transfer seededStore ⟨.str idAlice, .str idBob, .num 150⟩).1.status
        = 200 ∧
    (transfer seededStore ⟨.str idAlice, .str idBob, .num 150⟩).1.message
        = "Transferred $150 from Alice to Bob" ∧
    (transfer seededStore ⟨.str idAlice, .str idBob, .num 150⟩).1.message
        ≠ "Transferred 150 from Alice to Bob" := by
  with_unfolding_all decide

/-- C1 (amended): whenever both identifiers are well-formed, distinct and
resolve to accounts, the amount is a positive (finite) number, the source
balance covers the amount and the destination balance is non-negative (the
documented store invariant), the transfer succeeds with status 200, sender
balance `sourceBalance - amount`, receiver balance `destinationBalance +
amount`, conservation of the summed balances, message "Transferred
$<amount> from <sourceName> to <destinationName>" (with a dollar sign), the
two reads and exactly the two balance writes, and the persisted documents
carry exactly the new balances. -/
theorem transfer_success_correct (store : List Account) (f t : String)
    (q : ℚ) (src dst : Account)
    (hf : validObjectId f = true) (ht : validObjectId t = true) (hne : f ≠ t)
    (hq : 0 < q)
    (hsrc : findAccount store f = some src)
    (hdst : findAccount store t = some dst)
    (hbal : q ≤ src.balance) (hdnn : 0 ≤ dst.balance) :
    transfer store ⟨.str f, .str t, .num q⟩ =
      (⟨200,
        "Transferred $" ++ jsNumToString q ++ " from " ++ src.name ++ " to "
          ++ dst.name,
        none, some (src.balance - q), some (dst.balance + q)⟩,
       updateAccount (updateAccount store ⟨src.id, src.name, src.balance - q⟩)
         ⟨dst.id, dst.name, dst.balance + q⟩,
       [.read (.str f), .read (.str t),
        .write ⟨src.id, src.name, src.balance - q⟩,
        .write ⟨dst.id, dst.name, dst.balance + q⟩]) ∧
    (src.balance - q) + (dst.balance + q) = src.balance + dst.balance ∧
    findAccount (transfer store ⟨.str f, .str t, .num q⟩).2.1 f =
      some ⟨src.id, src.name, src.balance - q⟩ ∧
    findAccount (transfer store ⟨.str f, .str t, .num q⟩).2.1 t =
      some ⟨dst.id, dst.name, dst.balance + q⟩ := by
  have hsid : src.id = f := findAccount_id hsrc
  have hdid : dst.id = t := findAccount_id hdst
  have hft := truthy_str_of_valid hf
  have htt := truthy_str_of_valid ht
  have hqt : (JsVal.num q).truthy = true := by
    simp [JsVal.truthy, beq_eq_false_iff_ne.mpr (ne_of_gt hq)]
  have hjz : (JsVal.num q).jsLeZero = false := by
    simp [JsVal.jsLeZero, decide_eq_false (not_le.mpr hq)]
  have hst : (JsVal.str f).strictEq (.str t) = false := by
    simp [JsVal.strictEq, hne]
  have hnlt : jsLtNum src.balance (.num q) = false := by
    simp [jsLtNum, decide_eq_false (not_lt.mpr hbal)]
  have hs1 : saveAccount store ⟨src.id, src.name, src.balance - q⟩ =
      .ok (updateAccount store ⟨src.id, src.name, src.balance - q⟩) :=
    saveAccount_ok (by simpa using sub_nonneg.mpr hbal)
  have hs2 : saveAccount
      (updateAccount store ⟨src.id, src.name, src.balance - q⟩)
      ⟨dst.id, dst.name, dst.balance + q⟩ =
      .ok (updateAccount
        (updateAccount store ⟨src.id, src.name, src.balance - q⟩)
        ⟨dst.id, dst.name, dst.balance + q⟩) :=
    saveAccount_ok (by simpa using add_nonneg hdnn hq.le)
  have hmain : transfer store ⟨.str f, .str t, .num q⟩ =
      (⟨200,
        "Transferred $" ++ jsNumToString q ++ " from " ++ src.name ++ " to "
          ++ dst.name,
        none, some (src.balance - q), some (dst.balance + q)⟩,
       updateAccount (updateAccount store ⟨src.id, src.name, src.balance - q⟩)
         ⟨dst.id, dst.name, dst.balance + q⟩,
       [.read (.str f), .read (.str t),
        .write ⟨src.id, src.name, src.balance - q⟩,
        .write ⟨dst.id, dst.name, dst.balance + q⟩]) := by
    simp [transfer, hft, htt, hqt, hjz, hst, findById_valid hf,
      findById_valid ht, hsrc, hdst, hnlt, hs1, hs2, JsVal.isNumberType,
      JsVal.getNum]
  refine ⟨hmain, by ring, ?_, ?_⟩
  · rw [hmain]
    show findAccount (updateAccount
        (updateAccount store ⟨src.id, src.name, src.balance - q⟩)
        ⟨dst.id, dst.name, dst.balance + q⟩) f =
      some ⟨src.id, src.name, src.balance - q⟩
    rw [findAccount_update_ne
      (show (Account.mk dst.id dst.name (dst.balance + q)).id ≠ f by
        simpa [hdid] using Ne.symm hne)]
    rw [show f = (Account.mk src.id src.name (src.balance - q)).id
      from hsid.symm]
    exact findAccount_update_self (by simp [hsid, hsrc])
  · rw [hmain]
    show findAccount (updateAccount
        (updateAccount store ⟨src.id, src.name, src.balance - q⟩)
        ⟨dst.id, dst.name, dst.balance + q⟩) t =
      some ⟨dst.id, dst.name, dst.balance + q⟩
    rw [show t = (Account.mk dst.id dst.name (dst.balance + q)).id
      from hdid.symm]
    apply findAccount_update_self
    rw [show (Account.mk dst.id dst.name (dst.balance + q)).id = t from hdid]
    rw [findAccount_update_ne
      (show (Account.mk src.id src.name (src.balance - q)).id ≠ t by
        simpa [hsid] using hne)]
    rw [hdst]
    rfl

/-- C1 witness: the seeded-store scenario, transferring 150 from Alice (1000)
to Bob (500). -/
theorem transfer_success_correct_witness :
    transfer seededStore ⟨.str idAlice, .str idBob, .num 150⟩ =
      (⟨200,
        "Transferred $" ++ jsNumToString 150 ++ " from " ++ "Alice" ++ " to "
          ++ "Bob",
        none, some ((1000 : ℚ) - 150), some ((500 : ℚ) + 150)⟩,
       updateAccount
         (updateAccount seededStore ⟨idAlice, "Alice", (1000 : ℚ) - 150⟩)
         ⟨idBob, "Bob", (500 : ℚ) + 150⟩,
       [.read (.str idAlice), .read (.str idBob),
        .write ⟨idAlice, "Alice", (1000 : ℚ) - 150⟩,
        .write ⟨idBob, "Bob", (500 : ℚ) + 150⟩]) ∧
    ((1000 : ℚ) - 150) + ((500 : ℚ) + 150) = (1000 : ℚ) + (500 : ℚ) ∧
    findAccount
      (transfer seededStore ⟨.str idAlice, .str idBob, .num 150⟩).2.1
      idAlice = some ⟨idAlice, "Alice", (1000 : ℚ) - 150⟩ ∧
    findAccount
      (transfer seededStore ⟨.str idAlice, .str idBob, .num 150⟩).2.1
      idBob = some ⟨idBob, "Bob", (500 : ℚ) + 150⟩ :=
  transfer_success_correct seededStore idAlice idBob 150
    ⟨idAlice, "Alice", 1000⟩ ⟨idBob, "Bob", 500⟩ (by decide) (by decide)
    (by decide) (by decide) (by decide) (by decide) (by decide) (by decide)

/-- C7: when the source balance write succeeds and the destination write then
fails (in the model: the destination document would violate the balance
constraint), the handler reports an operational failure (500) with the
validation error attached, and performs no compensating write: the source
document stays debited by the amount while the destination document is
unchanged, and the trace holds exactly one write. -/
theorem no_rollback_on_partial_failure (store : List Account) (f t : String)
    (q : ℚ) (src dst : Account)
    (hf : validObjectId f = true) (ht : validObjectId t = true) (hne : f ≠ t)
    (hq : 0 < q)
    (hsrc : findAccount store f = some src)
    (hdst : findAccount store t = some dst)
    (hbal : q ≤ src.balance) (hdneg : dst.balance + q < 0) :
    transfer store ⟨.str f, .str t, .num q⟩ =
      (errResp balanceValidationMsg,
       updateAccount store ⟨src.id, src.name, src.balance - q⟩,
       [.read (.str f), .read (.str t),
        .write ⟨src.id, src.name, src.balance - q⟩]) ∧
    findAccount (transfer store ⟨.str f, .str t, .num q⟩).2.1 f =
      some ⟨src.id, src.name, src.balance - q⟩ ∧
    findAccount (transfer store ⟨.str f, .str t, .num q⟩).2.1 t = some dst := by
  have hsid : src.id = f := findAccount_id hsrc
  have hdid : dst.id = t := findAccount_id hdst
  have hft := truthy_str_of_valid hf
  have htt := truthy_str_of_valid ht
  have hqt : (JsVal.num q).truthy = true := by
    simp [JsVal.truthy, beq_eq_false_iff_ne.mpr (ne_of_gt hq)]
  have hjz : (JsVal.num q).jsLeZero = false := by
    simp [JsVal.jsLeZero, decide_eq_false (not_le.mpr hq)]
  have hst : (JsVal.str f).strictEq (.str t) = false := by
    simp [JsVal.strictEq, hne]
  have hnlt : jsLtNum src.balance (.num q) = false := by
    simp [jsLtNum, decide_eq_false (not_lt.mpr hbal)]
  have hs1 : saveAccount store ⟨src.id, src.name, src.balance - q⟩ =
      .ok (updateAccount store ⟨src.id, src.name, src.balance - q⟩) :=
    saveAccount_ok (by simpa using sub_nonneg.mpr hbal)
  have hs2 : saveAccount
      (updateAccount store ⟨src.id, src.name, src.balance - q⟩)
      ⟨dst.id, dst.name, dst.balance + q⟩ =
      .error balanceValidationMsg :=
    saveAccount_rejects (by simpa using hdneg)
  have hmain : transfer store ⟨.str f, .str t, .num q⟩ =
      (errResp balanceValidationMsg,
       updateAccount store ⟨src.id, src.name, src.balance - q⟩,
       [.read (.str f), .read (.str t),
        .write ⟨src.id, src.name, src.balance - q⟩]) := by
    simp [transfer, hft, htt, hqt, hjz, hst, findById_valid hf,
      findById_valid ht, hsrc, hdst, hnlt, hs1, hs2, JsVal.isNumberType,
      JsVal.getNum]
  refine ⟨hmain, ?_, ?_⟩
  · rw [hmain]
    show findAccount
        (updateAccount store ⟨src.id, src.name, src.balance - q⟩) f =
      some ⟨src.id, src.name, src.balance - q⟩
    rw [show f = (Account.mk src.id src.name (src.balance - q)).id
      from hsid.symm]
    exact findAccount_update_self (by simp [hsid, hsrc])
  · rw [hmain]
    show findAccount
        (updateAccount store ⟨src.id, src.name, src.balance - q⟩) t =
      some dst
    rw [findAccount_update_ne
      (show (Account.mk src.id src.name (src.balance - q)).id ≠ t by
        simpa [hsid] using hne)]
    exact hdst

/-- C7 witness: transferring 10 from Alice (100) to a Bob document holding
-50 (a store state only producible outside the service) debits Alice, fails
the destination write, and leaves Bob unchanged under a 500 response. -/
theorem no_rollback_on_partial_failure_witness :
    transfer negStore ⟨.str idAlice, .str idBob, .num 10⟩ =
      (errResp balanceValidationMsg,
       updateAccount negStore ⟨idAlice, "Alice", (100 : ℚ) - 10⟩,
       [.read (.str idAlice), .read (.str idBob),
        .write ⟨idAlice, "Alice", (100 : ℚ) - 10⟩]) ∧
    findAccount (transfer negStore ⟨.str idAlice, .str idBob, .num 10⟩).2.1
      idAlice = some ⟨idAlice, "Alice", (100 : ℚ) - 10⟩ ∧
    findAccount (transfer negStore ⟨.str idAlice, .str idBob, .num 10⟩).2.1
      idBob = some ⟨idBob, "Bob", -50⟩ :=
  no_rollback_on_partial_failure negStore idAlice idBob 10
    ⟨idAlice, "Alice", 100⟩ ⟨idBob, "Bob", -50⟩ (by decide) (by decide)
    (by decide) (by decide) (by decide) (by decide) (by decide)
    (by with_unfolding_all decide)

/-- C8 counterexample: a transfer whose source identifier is malformed (not a
24-character hex ObjectId) is answered with a 500 operational-failure
response, not with a not-found-style rejection (status 404) as claimed. -/
theorem malformed_id_rejection_counterexample :
    (transfer seededStore ⟨.str "zzz", .str idBob, .num 10⟩).1.status
        = 500 ∧
    (transfer seededStore ⟨.str "zzz", .str idBob, .num 10⟩).1.status
        ≠ 404 ∧
    (transfer seededStore ⟨.str "zzz", .str idBob, .num 10⟩).1.message
        = "An error occurred during the transfer" := by
  decide

/-- C8 (amended): a malformed source identifier makes `findById` throw a cast
error, which the handler's catch block maps to an operational failure (500,
error detail attached, store untouched), while a well-formed identifier that
resolves to no account is answered with the distinct not-found rejection
(404); neither crashes the handler. -/
theorem malformed_id_operational (store : List Account) (f : String)
    (tv av : JsVal)
    (hfne : f ≠ "") (ht : tv.truthy = true) (ha : av.truthy = true)
    (han : av.isNumberType = true) (haz : av.jsLeZero = false)
    (hst : (JsVal.str f).strictEq tv = false) :
    (validObjectId f = false →
       transfer store ⟨.str f, tv, av⟩ =
         (errResp castErrorMsg, store, [.read (.str f)])) ∧
    (validObjectId f = true → findAccount store f = none →
       ∀ r, findById store tv = .ok r →
       transfer store ⟨.str f, tv, av⟩ =
         (mkResp 404 "Sender account not found", store,
           [.read (.str f), .read tv])) := by
  have hft : (JsVal.str f).truthy = true := by simp [JsVal.truthy, hfne]
  constructor
  · intro hbad
    simp [transfer, hft, ht, ha, han, haz, hst, findById_invalid hbad]
  · intro hgood hnone r hr
    simp [transfer, hft, ht, ha, han, haz, hst, findById_valid hgood, hnone,
      hr]

/-- C8 witness: the malformed identifier "zzz" yields the 500 operational
response with the cast error attached and only the one attempted read. -/
theorem malformed_id_operational_witness :
    transfer seededStore ⟨.str "zzz", .str idBob, .num 10⟩ =
      (errResp castErrorMsg, seededStore, [.read (.str "zzz")]) :=
  (malformed_id_operational seededStore "zzz" (.str idBob) (.num 10)
      (by decide) (by decide) (by decide) (by decide) (by decide)
      (by decide)).1 (by decide)

/-- C10: every invocation of the seeding handler empties the collection and
then creates exactly Alice with balance 1000 and Bob with balance 500, so the
resulting store holds exactly those two documents regardless of its prior
contents, under a 201 response. -/
theorem create_users_seeds_store (store : List Account) (i j : String) :
    createUsers store i j =
      (mkResp 201 "Users created",
        [⟨i, "Alice", 1000⟩, ⟨j, "Bob", 500⟩]) := by
  simp [createUsers, insertMany, deleteManyAll]

end Bank
